import Mathlib

/-!
Shallow embedding of the lfmai-expo streaming chat core.

Embedded source:
- the Android native module (LeapSDKModule, src/unnamed/part_000):
  loadModel / createConversation / generateResponse / cancelGeneration /
  getHistory / cleanup, plus the generation relay that folds the vendor flow
  into onChunk / onComplete / onError events and a promise settlement;
- src/modules/LeapSDK.ts (LeapSDKWrapper): event-emitter subscriptions and
  their removal on cancelGeneration / cleanup;
- src/services/leapLiquidAI.ts (LeapLiquidAIService): the isInitialized /
  modelPath / conversationCreated fields and the lifecycle guards;
- src/app/chat.tsx (handleSend): the message list and the onChunk /
  onComplete / onError updates of the streaming assistant message.

Results of awaited external SDK calls are passed as explicit parameters;
all machine state is explicit.
-/

namespace LfmExpo

/-- Message role, from the Message interface in chat.tsx. -/
inductive Role
  | user
  | assistant
deriving DecidableEq

/-- chat.tsx Message: id / text / role (the timestamp field is never read by
any logic and is omitted). Ids are strings, produced by Date.now().toString(). -/
structure Message where
  id : String
  text : String
  role : Role
deriving DecidableEq

/-- chat.tsx handleSend onChunk callback: map over the messages, appending the
chunk text to the message whose id equals the current responseId. -/
def onChunkUpdate (responseId chunkText : String) (msgs : List Message) : List Message :=
  msgs.map fun m => if m.id = responseId then { m with text := m.text ++ chunkText } else m

/-- chat.tsx handleSend onComplete callback: replace (not append) the text of
the message whose id equals the current responseId with the complete text. -/
def onCompleteUpdate (responseId completeText : String) (msgs : List Message) : List Message :=
  msgs.map fun m => if m.id = responseId then { m with text := completeText } else m

/-- chat.tsx handleSend onError callback: replace the text of the message whose
id equals the current responseId with an error marker. -/
def onErrorUpdate (responseId err : String) (msgs : List Message) : List Message :=
  msgs.map fun m => if m.id = responseId then { m with text := "Error: " ++ err } else m

/-- The two chunk-event kinds put in the event payload by the native relay
(the TS type is the string union of those two literals). -/
inductive ChunkType
  | chunk
  | reasoning
deriving DecidableEq

/-- The vendor flow items consumed by the native relay (MessageResponse):
Chunk, ReasoningChunk (whose payload is its toString rendering), and the
catch-all branch the relay ignores. -/
inductive MessageResponse
  | chunk (text : String)
  | reasoningChunk (text : String)
  | other
deriving DecidableEq

/-- The events the native module sends over the device event emitter. -/
inductive Event
  | onChunk (text : String) (type : ChunkType)
  | onComplete (text : String)
  | onError (error : String)
deriving DecidableEq

/-- How the vendor flow of one generation run terminates: normal completion,
or a fault raised by the producer. -/
inductive FlowEnd
  | normal
  | fault (msg : String)
deriving DecidableEq

/-- One generation run of the vendor flow: the responses it emits, then how it
ends. A fault occurring mid-stream is the run whose responses are the prefix
emitted before the fault. -/
structure ProducerRun where
  responses : List MessageResponse
  ending : FlowEnd
deriving DecidableEq

/-- The events the relay's onEach body sends for one flow item:
Chunk sends an onChunk event with type "chunk", ReasoningChunk sends an
onChunk event with type "reasoning", anything else is ignored. -/
def onEachEvents : MessageResponse → List Event
  | .chunk t => [.onChunk t .chunk]
  | .reasoningChunk t => [.onChunk t .reasoning]
  | .other => []

/-- The responseBuilder accumulated by the relay: only Chunk texts are
appended (ReasoningChunk and other items are not). -/
def responseBuilderText (rs : List MessageResponse) : String :=
  rs.foldl (fun acc r => match r with | .chunk t => acc ++ t | _ => acc) ""

/-- The settlement calls the native relay makes on the bridge promise. -/
inductive SettleCall
  | resolveCall (text : String)
  | rejectCall (code msg : String)
deriving DecidableEq

/-- All events an uncancelled generation run sends, in order. On normal
completion, onCompletion sends onComplete with the accumulated full response.
On a fault, onCompletion observes the non-null cause and sends onError, then
rethrows; the downstream catch operator catches the same fault and sends
onError again. -/
def generateRunEvents (run : ProducerRun) : List Event :=
  (run.responses.flatMap onEachEvents) ++
    match run.ending with
    | .normal => [.onComplete (responseBuilderText run.responses)]
    | .fault m =>
        [.onError ("Error in generation: " ++ m),
         .onError ("Error in generation: " ++ m)]

/-- The promise settlement calls of an uncancelled generation run, in order:
resolve once on normal completion; on a fault, reject in onCompletion and
reject again in the downstream catch operator. -/
def generateSettleCalls (run : ProducerRun) : List SettleCall :=
  match run.ending with
  | .normal => [.resolveCall (responseBuilderText run.responses)]
  | .fault m =>
      [.rejectCall "GENERATION_ERROR" ("Error in generation: " ++ m),
       .rejectCall "GENERATION_ERROR" ("Error in generation: " ++ m)]

/-- Texts of the Chunk items only, in order (what the responseBuilder sums). -/
def contentChunkTexts (rs : List MessageResponse) : List String :=
  rs.flatMap fun r => match r with
    | .chunk t => [t]
    | .reasoningChunk _ => []
    | .other => []

/-- Texts carried by the onChunk events the relay emits, in emission order
(Chunk and ReasoningChunk both produce one onChunk event). -/
def emittedChunkTexts (rs : List MessageResponse) : List String :=
  rs.flatMap fun r => match r with
    | .chunk t => [t]
    | .reasoningChunk t => [t]
    | .other => []

/-- Concatenation of a list of strings, in order. -/
def concatTexts : List String → String
  | [] => ""
  | s :: l => s ++ concatTexts l

/-- The consumer callbacks that can be registered on the wrapper's event
emitter; each carries the responseId its closure captured in handleSend. -/
inductive HandlerTag
  | chunkHandler (responseId : String)
  | completeHandler (responseId : String)
  | errorHandler (responseId : String)
deriving DecidableEq

/-- An emitter subscription of LeapSDKWrapper: the event name it listens to
and the callback. -/
structure Subscription where
  eventName : String
  handler : HandlerTag
deriving DecidableEq

/-- The emitter event name under which the native module sends each event. -/
def eventNameOf : Event → String
  | .onChunk _ _ => "onChunk"
  | .onComplete _ => "onComplete"
  | .onError _ => "onError"

/-- Applying one registered chat.tsx callback to one delivered event. -/
def applyHandler (h : HandlerTag) (e : Event) (msgs : List Message) : List Message :=
  match h, e with
  | .chunkHandler rid, .onChunk t _ => onChunkUpdate rid t msgs
  | .completeHandler rid, .onComplete t => onCompleteUpdate rid t msgs
  | .errorHandler rid, .onError err => onErrorUpdate rid err msgs
  | _, _ => msgs

/-- Emitter dispatch: an event reaches exactly the currently registered
subscriptions whose event name matches, in registration order. -/
def deliverEvent (subs : List Subscription) (e : Event) (msgs : List Message) : List Message :=
  subs.foldl (fun acc s => if s.eventName = eventNameOf e then applyHandler s.handler e acc else acc) msgs

/-- Deliver a sequence of events through the current subscriptions. -/
def processEvents (subs : List Subscription) (events : List Event) (msgs : List Message) : List Message :=
  events.foldl (fun acc e => deliverEvent subs e acc) msgs

/-- The three subscriptions LeapSDKWrapper.generateResponse registers when
handleSend passes its onChunk / onComplete / onError callbacks. -/
def sendMessageSubs (responseId : String) : List Subscription :=
  [⟨"onChunk", .chunkHandler responseId⟩,
   ⟨"onComplete", .completeHandler responseId⟩,
   ⟨"onError", .errorHandler responseId⟩]

/-- handleSend before awaiting sendMessage: append the user message, then an
empty assistant placeholder carrying the fresh responseId. -/
def handleSendSetup (msgs : List Message) (userId responseId userText : String) : List Message :=
  msgs ++ [⟨userId, userText, Role.user⟩, ⟨responseId, "", Role.assistant⟩]

/-- One full chat turn as chat.tsx runs it: set up the user message and the
assistant placeholder, then deliver every event of the generation run through
the subscriptions registered for this turn. -/
def chatTurn (msgs : List Message) (userId responseId userText : String) (run : ProducerRun) : List Message :=
  processEvents (sendMessageSubs responseId) (generateRunEvents run)
    (handleSendSetup msgs userId responseId userText)

/-- How one delivered event transforms the streaming message's text in
chat.tsx: a chunk appends, a completion replaces, an error replaces with the
error marker. -/
def eventTextUpdate : Event → String → String
  | .onChunk c _, s => s ++ c
  | .onComplete c, _ => c
  | .onError e, _ => "Error: " ++ e

/-- The streaming message's text after a sequence of delivered events. -/
def evalText (evs : List Event) (t : String) : String :=
  evs.foldl (fun s e => eventTextUpdate e s) t

/-- A vendor conversation handle; only its history is ever read. -/
structure Conversation where
  history : List String
deriving DecidableEq

/-- A generation coroutine job: its identity, whether it was cancelled, and
the events it has emitted so far. -/
structure TurnJob where
  jobId : Nat
  cancelled : Bool
  emitted : List Event
deriving DecidableEq

/-- The mutable fields of the native LeapSDKModule. The retired list keeps
the Job objects the module has cancelled and unreferenced, so cancellation of
a prior job stays observable. -/
structure NativeState where
  modelRunner : Option Nat
  currentConversation : Option Conversation
  generationJob : Option TurnJob
  retired : List TurnJob
deriving DecidableEq

/-- Native loadModel: awaits LeapClient.loadModel (its result is the
loadResult parameter); on success stores the runner and resolves true, on a
loading exception rejects with MODEL_LOAD_ERROR. -/
def nativeLoadModel (s : NativeState) (loadResult : Except String Nat) :
    NativeState × Except (String × String) Bool :=
  match loadResult with
  | .ok h => ({ s with modelRunner := some h }, .ok true)
  | .error e => (s, .error ("MODEL_LOAD_ERROR", "Failed to load model: " ++ e))

/-- Native createConversation: rejects with NO_MODEL if no runner is stored;
otherwise calls runner.createConversation (its result is the createResult
parameter), stores the conversation and resolves true, or rejects with
CONVERSATION_ERROR. -/
def nativeCreateConversation (s : NativeState) (createResult : Except String Conversation) :
    NativeState × Except (String × String) Bool :=
  match s.currentConversation, s.modelRunner with
  | _, none => (s, .error ("NO_MODEL", "Model not loaded. Call loadModel first."))
  | _, some _ =>
    match createResult with
    | .ok c => ({ s with currentConversation := some c }, .ok true)
    | .error e => (s, .error ("CONVERSATION_ERROR", "Failed to create conversation: " ++ e))

/-- Native generateResponse, synchronous part: rejects with NO_CONVERSATION if
no conversation exists; otherwise cancels the prior generationJob (if any) and
launches a fresh job that has emitted nothing yet. The promise settlement of
the launched job is generateSettleCalls of its eventual run. -/
def nativeGenerateResponse (s : NativeState) (freshId : Nat) :
    NativeState × Except (String × String) Unit :=
  match s.currentConversation with
  | none => (s, .error ("NO_CONVERSATION", "No conversation created. Call createConversation first."))
  | some _ =>
    ({ s with
       retired := (match s.generationJob with
                   | some j => s.retired ++ [{ j with cancelled := true }]
                   | none => s.retired),
       generationJob := some { jobId := freshId, cancelled := false, emitted := [] } },
     .ok ())

/-- Native cancelGeneration: cancels the generationJob if any (null-safe, so a
no-op when none is active), nulls it, and resolves true. -/
def nativeCancelGeneration (s : NativeState) :
    NativeState × Except (String × String) Bool :=
  ({ s with
     generationJob := none,
     retired := (match s.generationJob with
                 | some j => s.retired ++ [{ j with cancelled := true }]
                 | none => s.retired) },
   .ok true)

/-- Native getHistory: with no conversation, resolves with an empty messages
array; with a conversation, reads conversation.history, creates a fresh
messages array, and resolves with it without ever populating it. -/
def nativeGetHistory (s : NativeState) : Except String (List String) :=
  match s.currentConversation with
  | none => .ok []
  | some conv =>
    let _history := conv.history
    let messagesArray : List String := []
    .ok messagesArray

/-- Native cleanup: cancels any generationJob, nulls the job, the conversation
and the runner, and resolves true. -/
def nativeCleanup (s : NativeState) : NativeState × Except (String × String) Bool :=
  ({ modelRunner := none,
     currentConversation := none,
     generationJob := none,
     retired := (match s.generationJob with
                 | some j => s.retired ++ [{ j with cancelled := true }]
                 | none => s.retired) },
   .ok true)

/-- LeapSDKWrapper.cancelGeneration: removeAllListeners() clears every emitter
subscription, then the native cancelGeneration is awaited. Returns the
subscriptions after the call, the native state after the call, and the
awaited result. -/
def wrapperCancelGeneration (_subs : List Subscription) (n : NativeState) :
    List Subscription × NativeState × Except (String × String) Bool :=
  ([], (nativeCancelGeneration n).1, (nativeCancelGeneration n).2)

/-- The mutable fields of the LeapLiquidAIService singleton. -/
structure ServiceState where
  isInitialized : Bool
  modelPath : Option String
  conversationCreated : Bool
deriving DecidableEq

/-- The native bridge calls a service operation performs. -/
inductive NativeCall
  | loadModelCall (path : String)
  | createConversationCall
  | cleanupCall
deriving DecidableEq

/-- LeapLiquidAIService.initialize: if already initialized, warn and return
successfully without touching the bridge; otherwise set modelPath, then await
LeapSDK.loadModel (its result is the loadResult parameter); on success set
isInitialized, on failure set isInitialized to false and rethrow. Returns the
state, the outcome, and the bridge calls made. -/
def serviceInitialize (s : ServiceState) (path : String) (loadResult : Except String Unit) :
    ServiceState × Except String Unit × List NativeCall :=
  if s.isInitialized then
    (s, .ok (), [])
  else
    let s1 := { s with modelPath := some path }
    match loadResult with
    | .ok _ => ({ s1 with isInitialized := true }, .ok (), [.loadModelCall path])
    | .error e => ({ s1 with isInitialized := false }, .error e, [.loadModelCall path])

/-- LeapLiquidAIService.createConversation: throws if not initialized;
otherwise awaits LeapSDK.createConversation (its result is the createResult
parameter); on success sets conversationCreated, on failure rethrows. -/
def serviceCreateConversation (s : ServiceState) (createResult : Except String Unit) :
    ServiceState × Except String Unit × List NativeCall :=
  if s.isInitialized then
    match createResult with
    | .ok _ => ({ s with conversationCreated := true }, .ok (), [.createConversationCall])
    | .error e => (s, .error e, [.createConversationCall])
  else
    (s, .error "Leap Liquid AI is not initialized. Call initialize() first.", [])

/-- LeapLiquidAIService.cleanup: awaits LeapSDK.cleanup (its awaited bridge
result is the cleanupResult parameter; the bridge interface is
cleanup(): Promise, and the native module has a CLEANUP_ERROR reject branch);
only after a successful await are isInitialized, conversationCreated and
modelPath reset — the catch branch logs and rethrows without resetting. -/
def serviceCleanup (s : ServiceState) (cleanupResult : Except String Unit) :
    ServiceState × Except String Unit × List NativeCall :=
  match cleanupResult with
  | .ok _ =>
    ({ isInitialized := false, modelPath := none, conversationCreated := false },
     .ok (), [.cleanupCall])
  | .error e => (s, .error e, [.cleanupCall])

/-- LeapLiquidAIService.getHistory: throws if not initialized; otherwise a
pass-through of the awaited LeapSDK.getHistory result. -/
def serviceGetHistory (s : ServiceState) (historyResult : Except String (List String)) :
    Except String (List String) :=
  if s.isInitialized then historyResult
  else .error "Leap Liquid AI is not initialized. Call initialize() first."

/-- The common shape of the three chat.tsx callbacks: a text update of the
message bound to the responseId. -/
def updateText (rid : String) (g : String → String) (msgs : List Message) : List Message :=
  msgs.map fun m => if m.id = rid then { m with text := g m.text } else m

theorem deliverEvent_sendSubs (rid : String) (e : Event) (msgs : List Message) :
    deliverEvent (sendMessageSubs rid) e msgs = updateText rid (eventTextUpdate e) msgs := by
  cases e <;> rfl

theorem updateText_append (rid : String) (g : String → String) (l1 l2 : List Message) :
    updateText rid g (l1 ++ l2) = updateText rid g l1 ++ updateText rid g l2 :=
  List.map_append _ _ _

theorem updateText_fresh (rid : String) (g : String → String) :
    ∀ msgs : List Message, rid ∉ msgs.map Message.id → updateText rid g msgs = msgs := by
  intro msgs
  induction msgs with
  | nil => intro _; rfl
  | cons m rest ih =>
    intro h
    simp only [List.map_cons, List.mem_cons, not_or] at h
    have hm : ¬ (m.id = rid) := fun hc => h.1 hc.symm
    have hr := ih h.2
    simp only [updateText, List.map_cons, if_neg hm]
    simp only [updateText] at hr
    rw [hr]

theorem updateText_cons_pair (rid : String) (g : String → String) (msgs : List Message)
    (u : Message) (t : String) (r : Role)
    (hfresh : rid ∉ msgs.map Message.id) (hu : u.id ≠ rid) :
    updateText rid g (msgs ++ [u, ⟨rid, t, r⟩]) = msgs ++ [u, ⟨rid, g t, r⟩] := by
  rw [updateText_append, updateText_fresh rid g msgs hfresh]
  simp only [updateText, List.map_cons, List.map_nil, if_neg hu, eq_self_iff_true, if_true]

theorem processEvents_sendSubs (rid : String) (msgs : List Message) (u : Message) (r : Role)
    (hfresh : rid ∉ msgs.map Message.id) (hu : u.id ≠ rid) :
    ∀ (evs : List Event) (t : String),
      processEvents (sendMessageSubs rid) evs (msgs ++ [u, ⟨rid, t, r⟩]) =
        msgs ++ [u, ⟨rid, evalText evs t, r⟩] := by
  intro evs
  induction evs with
  | nil => intro _; rfl
  | cons e rest ih =>
    intro t
    show processEvents (sendMessageSubs rid) rest
        (deliverEvent (sendMessageSubs rid) e (msgs ++ [u, ⟨rid, t, r⟩])) = _
    rw [deliverEvent_sendSubs, updateText_cons_pair rid _ msgs u t r hfresh hu, ih]
    rfl

theorem evalText_append (a b : List Event) (t : String) :
    evalText (a ++ b) t = evalText b (evalText a t) :=
  List.foldl_append _ _ _ _

theorem evalText_chunkEvents (rs : List MessageResponse) :
    ∀ t : String, evalText (rs.flatMap onEachEvents) t
      = t ++ concatTexts (emittedChunkTexts rs) := by
  induction rs with
  | nil =>
    intro t
    exact (String.append_empty t).symm
  | cons r rest ih =>
    intro t
    cases r with
    | chunk c =>
      show evalText (rest.flatMap onEachEvents) (t ++ c)
        = t ++ concatTexts (c :: emittedChunkTexts rest)
      rw [ih]
      show t ++ c ++ concatTexts (emittedChunkTexts rest)
        = t ++ (c ++ concatTexts (emittedChunkTexts rest))
      rw [String.append_assoc]
    | reasoningChunk c =>
      show evalText (rest.flatMap onEachEvents) (t ++ c)
        = t ++ concatTexts (c :: emittedChunkTexts rest)
      rw [ih]
      show t ++ c ++ concatTexts (emittedChunkTexts rest)
        = t ++ (c ++ concatTexts (emittedChunkTexts rest))
      rw [String.append_assoc]
    | other => exact ih t

theorem responseBuilder_go (rs : List MessageResponse) :
    ∀ acc : String,
      rs.foldl (fun acc r => match r with | .chunk t => acc ++ t | _ => acc) acc
        = acc ++ concatTexts (contentChunkTexts rs) := by
  induction rs with
  | nil =>
    intro acc
    exact (String.append_empty acc).symm
  | cons r rest ih =>
    intro acc
    cases r with
    | chunk c =>
      show rest.foldl _ (acc ++ c) = acc ++ concatTexts (c :: contentChunkTexts rest)
      rw [ih]
      show acc ++ c ++ concatTexts (contentChunkTexts rest)
        = acc ++ (c ++ concatTexts (contentChunkTexts rest))
      rw [String.append_assoc]
    | reasoningChunk c => exact ih acc
    | other => exact ih acc

theorem responseBuilder_eq_contentConcat (rs : List MessageResponse) :
    responseBuilderText rs = concatTexts (contentChunkTexts rs) :=
  (responseBuilder_go rs "").trans (String.empty_append _)

theorem chatTurn_normal (msgs0 : List Message) (userId respId userText : String)
    (rs : List MessageResponse)
    (hfresh : respId ∉ msgs0.map Message.id) (hu : respId ≠ userId) :
    chatTurn msgs0 userId respId userText ⟨rs, FlowEnd.normal⟩ =
      msgs0 ++ [⟨userId, userText, Role.user⟩,
                ⟨respId, responseBuilderText rs, Role.assistant⟩] := by
  have key := processEvents_sendSubs respId msgs0 ⟨userId, userText, Role.user⟩
    Role.assistant hfresh (Ne.symm hu)
    (rs.flatMap onEachEvents ++ [Event.onComplete (responseBuilderText rs)]) ""
  have htext : evalText (rs.flatMap onEachEvents
      ++ [Event.onComplete (responseBuilderText rs)]) "" = responseBuilderText rs := by
    rw [evalText_append]
    exact rfl
  rw [htext] at key
  exact key

theorem chatTurn_chunkPrefix (msgs0 : List Message) (userId respId userText : String)
    (rs : List MessageResponse)
    (hfresh : respId ∉ msgs0.map Message.id) (hu : respId ≠ userId) :
    processEvents (sendMessageSubs respId) (rs.flatMap onEachEvents)
        (handleSendSetup msgs0 userId respId userText) =
      msgs0 ++ [⟨userId, userText, Role.user⟩,
                ⟨respId, concatTexts (emittedChunkTexts rs), Role.assistant⟩] := by
  have key := processEvents_sendSubs respId msgs0 ⟨userId, userText, Role.user⟩
    Role.assistant hfresh (Ne.symm hu) (rs.flatMap onEachEvents) ""
  rw [evalText_chunkEvents, String.empty_append] at key
  exact key

/-- C1: after a successful load, conversation creation and a generate call
whose producer run ends with normal completion, the message log contains
exactly one assistant message for that turn, and its final text is exactly
the completion's full text (the accumulated full response of the relay);
the onComplete update replaces the accumulated chunk text rather than
appending to it, for every chunk sequence and resulting completion text. -/
theorem c1_completion_replaces_chunks
    (msgs0 : List Message) (userId respId userText : String)
    (rs : List MessageResponse)
    (n0 : NativeState) (h : Nat) (conv : Conversation) (fid : Nat)
    (hfresh : respId ∉ msgs0.map Message.id) (hu : respId ≠ userId) :
    (nativeLoadModel n0 (Except.ok h)).2 = Except.ok true ∧
    (nativeCreateConversation (nativeLoadModel n0 (Except.ok h)).1
        (Except.ok conv)).2 = Except.ok true ∧
    (nativeGenerateResponse
        (nativeCreateConversation (nativeLoadModel n0 (Except.ok h)).1
          (Except.ok conv)).1 fid).2 = Except.ok () ∧
    chatTurn msgs0 userId respId userText ⟨rs, FlowEnd.normal⟩ =
      msgs0 ++ [⟨userId, userText, Role.user⟩,
                ⟨respId, responseBuilderText rs, Role.assistant⟩] ∧
    (chatTurn msgs0 userId respId userText ⟨rs, FlowEnd.normal⟩).countP
      (fun m => decide (m.id = respId ∧ m.role = Role.assistant)) = 1 := by
  have hmain := chatTurn_normal msgs0 userId respId userText rs hfresh hu
  refine ⟨rfl, rfl, rfl, hmain, ?_⟩
  rw [hmain, List.countP_append]
  have h0 : msgs0.countP (fun m => decide (m.id = respId ∧ m.role = Role.assistant)) = 0 := by
    rw [List.countP_eq_zero]
    intro m hm
    simp only [decide_eq_true_eq, not_and]
    intro hid _
    exact hfresh (hid ▸ List.mem_map_of_mem Message.id hm)
  rw [h0]
  simp [List.countP_cons]

/-- C1 witness: chunks "Hel" then "lo", completion full text "Hello": the log
ends with one assistant message whose text is "Hello". -/
theorem c1_completion_replaces_chunks_witness :
    (("3" : String) ∉ ([⟨"1", "welcome", Role.assistant⟩] : List Message).map Message.id) ∧
    ("3" : String) ≠ "2" ∧
    responseBuilderText [MessageResponse.chunk "Hel", MessageResponse.chunk "lo"] = "Hello" ∧
    ((nativeLoadModel ⟨none, none, none, []⟩ (Except.ok 7)).2 = Except.ok true ∧
     (nativeCreateConversation (nativeLoadModel ⟨none, none, none, []⟩ (Except.ok 7)).1
         (Except.ok ⟨[]⟩)).2 = Except.ok true ∧
     (nativeGenerateResponse
         (nativeCreateConversation (nativeLoadModel ⟨none, none, none, []⟩ (Except.ok 7)).1
           (Except.ok ⟨[]⟩)).1 1).2 = Except.ok () ∧
     chatTurn [⟨"1", "welcome", Role.assistant⟩] "2" "3" "Hi"
         ⟨[MessageResponse.chunk "Hel", MessageResponse.chunk "lo"], FlowEnd.normal⟩ =
       [⟨"1", "welcome", Role.assistant⟩] ++
         [⟨"2", "Hi", Role.user⟩,
          ⟨"3", responseBuilderText [MessageResponse.chunk "Hel", MessageResponse.chunk "lo"],
            Role.assistant⟩] ∧
     (chatTurn [⟨"1", "welcome", Role.assistant⟩] "2" "3" "Hi"
         ⟨[MessageResponse.chunk "Hel", MessageResponse.chunk "lo"], FlowEnd.normal⟩).countP
       (fun m => decide (m.id = "3" ∧ m.role = Role.assistant)) = 1) :=
  ⟨by decide, by decide, rfl,
   c1_completion_replaces_chunks [⟨"1", "welcome", Role.assistant⟩] "2" "3" "Hi"
     [MessageResponse.chunk "Hel", MessageResponse.chunk "lo"]
     ⟨none, none, none, []⟩ 7 ⟨[]⟩ 1 (by decide) (by decide)⟩

/-- C2: for every response sequence of an uncancelled turn the consumer-side
log holds exactly the concatenation, in emission order, of the chunk texts the
producer emitted. Because this holds for every response list, it holds for
every prefix of a run, so the successive log states carry exactly the partial
concatenations in emission order: no chunk is reordered, dropped, or delivered
twice. -/
theorem c2_chunk_order_preserved
    (msgs0 : List Message) (userId respId userText : String)
    (rs : List MessageResponse)
    (hfresh : respId ∉ msgs0.map Message.id) (hu : respId ≠ userId) :
    processEvents (sendMessageSubs respId) (rs.flatMap onEachEvents)
        (handleSendSetup msgs0 userId respId userText) =
      msgs0 ++ [⟨userId, userText, Role.user⟩,
                ⟨respId, concatTexts (emittedChunkTexts rs), Role.assistant⟩] :=
  chatTurn_chunkPrefix msgs0 userId respId userText rs hfresh hu

/-- C2 witness: a run with a content chunk, a reasoning chunk, an ignored
item and another content chunk is delivered in exactly that order. -/
theorem c2_chunk_order_preserved_witness :
    (("9" : String) ∉ ([] : List Message).map Message.id) ∧
    ("9" : String) ≠ "8" ∧
    processEvents (sendMessageSubs "9")
        ([MessageResponse.chunk "a", MessageResponse.reasoningChunk "r",
          MessageResponse.other, MessageResponse.chunk "b"].flatMap onEachEvents)
        (handleSendSetup [] "8" "9" "Q") =
      [] ++ [⟨"8", "Q", Role.user⟩,
             ⟨"9", concatTexts (emittedChunkTexts
                [MessageResponse.chunk "a", MessageResponse.reasoningChunk "r",
                 MessageResponse.other, MessageResponse.chunk "b"]), Role.assistant⟩] :=
  ⟨by decide, by decide,
   c2_chunk_order_preserved [] "8" "9" "Q"
     [MessageResponse.chunk "a", MessageResponse.reasoningChunk "r",
      MessageResponse.other, MessageResponse.chunk "b"] (by decide) (by decide)⟩

/-- C3: evaluation of the generation relay at a faulting producer run. The
flow pipeline is onEach / onCompletion / catch: onCompletion observes the
non-null cause, sends an onError event and rejects the promise, then rethrows,
and the downstream catch operator catches the same fault and sends a second
identical onError event and a second reject. So one producer fault surfaces
as two terminal error events and two rejection calls, not exactly once. -/
theorem c3_fault_double_surfaced :
    generateRunEvents ⟨[MessageResponse.chunk "Hel"], FlowEnd.fault "boom"⟩ =
      [Event.onChunk "Hel" ChunkType.chunk,
       Event.onError "Error in generation: boom",
       Event.onError "Error in generation: boom"] ∧
    generateSettleCalls ⟨[MessageResponse.chunk "Hel"], FlowEnd.fault "boom"⟩ =
      [SettleCall.rejectCall "GENERATION_ERROR" "Error in generation: boom",
       SettleCall.rejectCall "GENERATION_ERROR" "Error in generation: boom"] ∧
    (generateRunEvents ⟨[MessageResponse.chunk "Hel"], FlowEnd.fault "boom"⟩).countP
      (fun e => match e with | Event.onError _ => true | _ => false) = 2 ∧
    (generateSettleCalls ⟨[MessageResponse.chunk "Hel"], FlowEnd.fault "boom"⟩).countP
      (fun c => match c with | SettleCall.rejectCall _ _ => true | _ => false) = 2 := by
  refine ⟨rfl, rfl, rfl, rfl⟩

/-- C4: after cancelActiveGeneration (the wrapper's cancelGeneration) returns,
every subsequently delivered producer-side event — chunk, completion or error —
is dropped before reaching the consumer, because removeAllListeners cleared
every subscription, so the message log is never mutated; the native call
resolves true, and when no generation is active it leaves the native state
unchanged (a no-op). -/
theorem c4_cancel_suppresses_events
    (subs : List Subscription) (n : NativeState) (e : Event) (msgs : List Message) :
    deliverEvent (wrapperCancelGeneration subs n).1 e msgs = msgs ∧
    (wrapperCancelGeneration subs n).2.2 = Except.ok true ∧
    (n.generationJob = none → (wrapperCancelGeneration subs n).2.1 = n) := by
  refine ⟨rfl, rfl, ?_⟩
  intro hnone
  show (nativeCancelGeneration n).1 = n
  cases n with
  | mk mr cc gj ret =>
    simp only at hnone
    subst hnone
    rfl

/-- C4 witness: with no active generation and a registered chunk listener, a
chunk event arriving after cancel leaves the log unchanged, the call resolves
true, and the native state is untouched. -/
theorem c4_cancel_suppresses_events_witness :
    (NativeState.mk (some 7) (some ⟨[]⟩) none []).generationJob = none ∧
    (deliverEvent (wrapperCancelGeneration (sendMessageSubs "3")
          (NativeState.mk (some 7) (some ⟨[]⟩) none [])).1
        (Event.onChunk "late" ChunkType.chunk) [⟨"3", "t", Role.assistant⟩]
      = [⟨"3", "t", Role.assistant⟩]) ∧
    (wrapperCancelGeneration (sendMessageSubs "3")
        (NativeState.mk (some 7) (some ⟨[]⟩) none [])).2.2 = Except.ok true ∧
    (wrapperCancelGeneration (sendMessageSubs "3")
        (NativeState.mk (some 7) (some ⟨[]⟩) none [])).2.1
      = NativeState.mk (some 7) (some ⟨[]⟩) none [] :=
  have hmain := c4_cancel_suppresses_events (sendMessageSubs "3")
    (NativeState.mk (some 7) (some ⟨[]⟩) none [])
    (Event.onChunk "late" ChunkType.chunk) [⟨"3", "t", Role.assistant⟩]
  ⟨rfl, hmain.1, hmain.2.1, hmain.2.2 rfl⟩

/-- C5: when generate is called while a prior turn job is active, the prior
job is cancelled before the new job starts: after the call the prior job sits
cancelled in the retired list, and the newly active job has emitted no event
yet; the call itself is accepted (no synchronous rejection). -/
theorem c5_generate_cancels_prior
    (n : NativeState) (fid : Nat) (conv : Conversation) (j : TurnJob)
    (hc : n.currentConversation = some conv) (hj : n.generationJob = some j) :
    (nativeGenerateResponse n fid).2 = Except.ok () ∧
    (nativeGenerateResponse n fid).1.retired = n.retired ++ [{ j with cancelled := true }] ∧
    (nativeGenerateResponse n fid).1.generationJob =
      some { jobId := fid, cancelled := false, emitted := [] } := by
  simp [nativeGenerateResponse, hc, hj]

/-- C5 witness: a state with a conversation and an active job that already
emitted a chunk; the new generate call cancels it and installs a fresh,
silent job. -/
theorem c5_generate_cancels_prior_witness :
    (NativeState.mk (some 7) (some ⟨[]⟩)
        (some ⟨0, false, [Event.onChunk "a" ChunkType.chunk]⟩) []).currentConversation
      = some ⟨[]⟩ ∧
    (NativeState.mk (some 7) (some ⟨[]⟩)
        (some ⟨0, false, [Event.onChunk "a" ChunkType.chunk]⟩) []).generationJob
      = some ⟨0, false, [Event.onChunk "a" ChunkType.chunk]⟩ ∧
    ((nativeGenerateResponse (NativeState.mk (some 7) (some ⟨[]⟩)
        (some ⟨0, false, [Event.onChunk "a" ChunkType.chunk]⟩) []) 1).2 = Except.ok () ∧
     (nativeGenerateResponse (NativeState.mk (some 7) (some ⟨[]⟩)
        (some ⟨0, false, [Event.onChunk "a" ChunkType.chunk]⟩) []) 1).1.retired
       = [] ++ [{ TurnJob.mk 0 false [Event.onChunk "a" ChunkType.chunk] with cancelled := true }] ∧
     (nativeGenerateResponse (NativeState.mk (some 7) (some ⟨[]⟩)
        (some ⟨0, false, [Event.onChunk "a" ChunkType.chunk]⟩) []) 1).1.generationJob
       = some { jobId := 1, cancelled := false, emitted := [] }) :=
  ⟨rfl, rfl,
   c5_generate_cancels_prior
     (NativeState.mk (some 7) (some ⟨[]⟩)
       (some ⟨0, false, [Event.onChunk "a" ChunkType.chunk]⟩) []) 1 ⟨[]⟩
     ⟨0, false, [Event.onChunk "a" ChunkType.chunk]⟩ rfl rfl⟩

/-- C6 counterexample: with a model already loaded, a second initialize call
resolves successfully and makes no bridge call — it does not return the no-op
error the claim asserts (the load result parameter is irrelevant: even a
failing loader is never consulted, so no second load is attempted). -/
theorem c6_already_loaded_counterexample :
    serviceInitialize ⟨true, some "/data/local/tmp/leap/model.bundle", false⟩
        "/data/local/tmp/leap/model.bundle" (Except.error "unused")
      = (⟨true, some "/data/local/tmp/leap/model.bundle", false⟩, Except.ok (), []) := rfl

/-- C6 amended: calling initialize when a model is already loaded is an
idempotent no-op that resolves successfully (only a warning is logged): the
state is unchanged and the native loadModel is never invoked, so the model is
not loaded a second time — but no error is returned to the caller. -/
theorem c6_already_loaded_noop_success
    (s : ServiceState) (path : String) (r : Except String Unit)
    (hinit : s.isInitialized = true) :
    serviceInitialize s path r = (s, Except.ok (), []) := by
  simp [serviceInitialize, hinit]

/-- C6 amended witness. -/
theorem c6_already_loaded_noop_success_witness :
    (ServiceState.mk true (some "/p") false).isInitialized = true ∧
    serviceInitialize ⟨true, some "/p", false⟩ "/q" (Except.error "unused")
      = (⟨true, some "/p", false⟩, Except.ok (), []) :=
  ⟨rfl, c6_already_loaded_noop_success ⟨true, some "/p", false⟩ "/q"
    (Except.error "unused") rfl⟩

/-- C7 counterexample: starting uninitialized with no stored path, a failing
loadModel leaves the session in a state different from the one before the
call — the stored model path has been overwritten with the attempted path,
because initialize assigns this.modelPath before awaiting the load. -/
theorem c7_load_failure_mutates_path_counterexample :
    (serviceInitialize ⟨false, none, false⟩ "/data/local/tmp/leap/model.bundle"
        (Except.error "Failed to load model: not found")).1
      = ⟨false, some "/data/local/tmp/leap/model.bundle", false⟩ ∧
    (⟨false, some "/data/local/tmp/leap/model.bundle", false⟩ : ServiceState)
      ≠ ⟨false, none, false⟩ :=
  ⟨rfl, by decide⟩

/-- C7 amended: a failing createConversation leaves the session state
entirely unchanged; a failing loadModel leaves the initialization flag and
the conversation flag unchanged but overwrites the stored model path with the
attempted path (the path is assigned before the load is awaited). -/
theorem c7_lifecycle_failure_state
    (s : ServiceState) (path e e2 : String)
    (hinit : s.isInitialized = false) :
    serviceInitialize s path (Except.error e) =
      ({ s with modelPath := some path }, Except.error e, [NativeCall.loadModelCall path]) ∧
    ∀ s2 : ServiceState, (serviceCreateConversation s2 (Except.error e2)).1 = s2 := by
  constructor
  · cases s with
    | mk ii mp cc =>
      simp only at hinit
      subst hinit
      rfl
  · intro s2
    cases hii : s2.isInitialized <;> simp [serviceCreateConversation, hii]

/-- C7 amended witness. -/
theorem c7_lifecycle_failure_state_witness :
    (ServiceState.mk false none false).isInitialized = false ∧
    (serviceInitialize ⟨false, none, false⟩ "/p" (Except.error "load failed") =
      ({ ServiceState.mk false none false with modelPath := some "/p" },
       Except.error "load failed", [NativeCall.loadModelCall "/p"]) ∧
     ∀ s2 : ServiceState, (serviceCreateConversation s2 (Except.error "create failed")).1 = s2) :=
  ⟨rfl, c7_lifecycle_failure_state ⟨false, none, false⟩ "/p" "load failed" "create failed" rfl⟩

/-- C8 counterexample: with the session fully initialized, a cleanup whose
underlying release fails rethrows the error and leaves every local field
unchanged — in particular the session is still marked initialized, so the
local transition to uninitialized did not complete. -/
theorem c8_cleanup_failure_counterexample :
    serviceCleanup ⟨true, some "/data/local/tmp/leap/model.bundle", true⟩
        (Except.error "Failed to cleanup: release failed")
      = (⟨true, some "/data/local/tmp/leap/model.bundle", true⟩,
         Except.error "Failed to cleanup: release failed", [NativeCall.cleanupCall]) ∧
    (serviceCleanup ⟨true, some "/data/local/tmp/leap/model.bundle", true⟩
        (Except.error "Failed to cleanup: release failed")).1.isInitialized = true :=
  ⟨rfl, rfl⟩

/-- C8 amended: cleanup resets the local state (uninitialized, no stored
path, no conversation) only when the underlying release succeeds; when the
release fails, the error is rethrown and the local state is left unchanged —
the local reset happens after the awaited call, inside the try block. -/
theorem c8_cleanup_resets_only_on_success (s : ServiceState) (e : String) :
    serviceCleanup s (Except.ok ()) =
      (⟨false, none, false⟩, Except.ok (), [NativeCall.cleanupCall]) ∧
    serviceCleanup s (Except.error e) = (s, Except.error e, [NativeCall.cleanupCall]) :=
  ⟨rfl, rfl⟩

/-- C9: the full response used for the completion event and for the resolved
promise value is the concatenation of the content chunk texts only, excluding
reasoning-chunk text; reasoning chunks are nonetheless delivered as onChunk
events and appended to the streaming message, so the text displayed during
streaming is the concatenation of all delivered chunk texts and is replaced
at completion by the content-only text — and the two can differ. -/
theorem c9_reasoning_excluded_from_full_text
    (rs : List MessageResponse) (msgs0 : List Message) (userId respId userText : String)
    (hfresh : respId ∉ msgs0.map Message.id) (hu : respId ≠ userId) :
    responseBuilderText rs = concatTexts (contentChunkTexts rs) ∧
    generateSettleCalls ⟨rs, FlowEnd.normal⟩ =
      [SettleCall.resolveCall (concatTexts (contentChunkTexts rs))] ∧
    generateRunEvents ⟨rs, FlowEnd.normal⟩ =
      rs.flatMap onEachEvents ++ [Event.onComplete (concatTexts (contentChunkTexts rs))] ∧
    processEvents (sendMessageSubs respId) (rs.flatMap onEachEvents)
        (handleSendSetup msgs0 userId respId userText) =
      msgs0 ++ [⟨userId, userText, Role.user⟩,
                ⟨respId, concatTexts (emittedChunkTexts rs), Role.assistant⟩] ∧
    chatTurn msgs0 userId respId userText ⟨rs, FlowEnd.normal⟩ =
      msgs0 ++ [⟨userId, userText, Role.user⟩,
                ⟨respId, concatTexts (contentChunkTexts rs), Role.assistant⟩] ∧
    ∃ rs2 : List MessageResponse,
      concatTexts (emittedChunkTexts rs2) ≠ concatTexts (contentChunkTexts rs2) := by
  have hrb := responseBuilder_eq_contentConcat rs
  refine ⟨hrb, ?_, ?_, chatTurn_chunkPrefix msgs0 userId respId userText rs hfresh hu, ?_, ?_⟩
  · show [SettleCall.resolveCall (responseBuilderText rs)] = _
    rw [hrb]
  · show rs.flatMap onEachEvents ++ [Event.onComplete (responseBuilderText rs)] = _
    rw [hrb]
  · rw [chatTurn_normal msgs0 userId respId userText rs hfresh hu, hrb]
  · refine ⟨[MessageResponse.reasoningChunk "thinking"], ?_⟩
    decide

/-- C9 witness: a run interleaving reasoning text shows the streaming text
("HelThinkinglo") and the strictly shorter final text ("Hello"). -/
theorem c9_reasoning_excluded_from_full_text_witness :
    (("3" : String) ∉ ([] : List Message).map Message.id) ∧
    ("3" : String) ≠ "2" ∧
    (responseBuilderText [MessageResponse.chunk "Hel",
        MessageResponse.reasoningChunk "Thinking", MessageResponse.chunk "lo"] =
      concatTexts (contentChunkTexts [MessageResponse.chunk "Hel",
        MessageResponse.reasoningChunk "Thinking", MessageResponse.chunk "lo"]) ∧
     generateSettleCalls ⟨[MessageResponse.chunk "Hel",
        MessageResponse.reasoningChunk "Thinking", MessageResponse.chunk "lo"],
        FlowEnd.normal⟩ =
      [SettleCall.resolveCall (concatTexts (contentChunkTexts [MessageResponse.chunk "Hel",
        MessageResponse.reasoningChunk "Thinking", MessageResponse.chunk "lo"]))] ∧
     generateRunEvents ⟨[MessageResponse.chunk "Hel",
        MessageResponse.reasoningChunk "Thinking", MessageResponse.chunk "lo"],
        FlowEnd.normal⟩ =
      [MessageResponse.chunk "Hel", MessageResponse.reasoningChunk "Thinking",
        MessageResponse.chunk "lo"].flatMap onEachEvents ++
        [Event.onComplete (concatTexts (contentChunkTexts [MessageResponse.chunk "Hel",
          MessageResponse.reasoningChunk "Thinking", MessageResponse.chunk "lo"]))] ∧
     processEvents (sendMessageSubs "3")
        ([MessageResponse.chunk "Hel", MessageResponse.reasoningChunk "Thinking",
          MessageResponse.chunk "lo"].flatMap onEachEvents)
        (handleSendSetup [] "2" "3" "Hi") =
       [] ++ [⟨"2", "Hi", Role.user⟩,
              ⟨"3", concatTexts (emittedChunkTexts [MessageResponse.chunk "Hel",
                MessageResponse.reasoningChunk "Thinking", MessageResponse.chunk "lo"]),
                Role.assistant⟩] ∧
     chatTurn [] "2" "3" "Hi" ⟨[MessageResponse.chunk "Hel",
        MessageResponse.reasoningChunk "Thinking", MessageResponse.chunk "lo"],
        FlowEnd.normal⟩ =
       [] ++ [⟨"2", "Hi", Role.user⟩,
              ⟨"3", concatTexts (contentChunkTexts [MessageResponse.chunk "Hel",
                MessageResponse.reasoningChunk "Thinking", MessageResponse.chunk "lo"]),
                Role.assistant⟩] ∧
     ∃ rs2 : List MessageResponse,
       concatTexts (emittedChunkTexts rs2) ≠ concatTexts (contentChunkTexts rs2)) :=
  ⟨by decide, by decide,
   c9_reasoning_excluded_from_full_text
     [MessageResponse.chunk "Hel", MessageResponse.reasoningChunk "Thinking",
      MessageResponse.chunk "lo"] [] "2" "3" "Hi" (by decide) (by decide)⟩

/-- C10: getHistory always resolves with an empty messages array — with no
conversation it resolves (rather than rejecting) with an empty list, and with
a conversation it reads the history but resolves with the freshly created,
never-populated array; through the initialized service it is the same empty
result. -/
theorem c10_history_always_empty (n : NativeState) (svc : ServiceState)
    (hinit : svc.isInitialized = true) :
    nativeGetHistory n = Except.ok [] ∧
    serviceGetHistory svc (nativeGetHistory n) = Except.ok [] := by
  have h1 : nativeGetHistory n = Except.ok [] := by
    cases hc : n.currentConversation <;> simp [nativeGetHistory, hc]
  exact ⟨h1, by simp [serviceGetHistory, hinit, h1]⟩

/-- C10 witness: a conversation with non-empty history still yields an empty
messages array. -/
theorem c10_history_always_empty_witness :
    (ServiceState.mk true (some "/p") true).isInitialized = true ∧
    (nativeGetHistory (NativeState.mk (some 7) (some ⟨["hi", "there"]⟩) none [])
        = Except.ok [] ∧
     serviceGetHistory ⟨true, some "/p", true⟩
        (nativeGetHistory (NativeState.mk (some 7) (some ⟨["hi", "there"]⟩) none []))
        = Except.ok []) :=
  ⟨rfl, c10_history_always_empty (NativeState.mk (some 7) (some ⟨["hi", "there"]⟩) none [])
    ⟨true, some "/p", true⟩ rfl⟩

end LfmExpo
